import Mathlib

/-!
Verification of the user-endpoint binding layer of the payment-sdk
repository (lib/user module and the top-level index module).

Shallow embedding conventions:
* A JavaScript scalar value is `JSValue` (`undef` is `undefined`); an
  object literal is an insertion-ordered association list `Obj`, with
  distinct keys when it models a genuine JS object.
* The transport handle `api` is a record `Api D` supplying `get` and
  `post`; `D` is the (abstract) type of the deferred result a transport
  call produces.  Calling `api.get(path)` with the query argument omitted
  is `api.get path none`.  The record also carries the `redirectUri`
  property of the api object itself (undefined unless the caller set one).
* The call-time `this` receiver of a binding function is a `Ctx`: the
  module is compiled with `'use strict'`, so `this` is `undefined` for a
  plain call, and reading `this.redirectUri` then throws a TypeError.
  A default parameter `redirectUri = this.redirectUri` is evaluated only
  when the supplied argument is `undefined`.  Binding functions that have
  such a default therefore return `Except String D`; an `.error`
  models a thrown TypeError, `.ok` a normal return whose payload is
  exactly the transport's result.
* `Request` reifies one transport call (method, path, optional
  query/body object); the recording instantiations `reqApi` (`D :=
  Request`) and `traceApi` (`D := Tr`, a trace transformer appending the
  performed call) play the role of the mock transports of the spec's
  testable properties.
-/

inductive JSValue where
  | undef
  | nullv
  | boolv (b : Bool)
  | str (s : String)
  | num (n : Int)
deriving DecidableEq, Repr

/-- A JavaScript object literal: insertion-ordered key/value list. -/
abbrev Obj := List (String × JSValue)

/-- Property read `o[key]`: first entry with the key, `undefined` if absent. -/
def getField : Obj → String → JSValue
  | [], _ => JSValue.undef
  | (k, v) :: rest, key => if k = key then v else getField rest key

/-- Whether the object has an own property named `key`. -/
def hasKey : Obj → String → Bool
  | [], _ => false
  | (k, _) :: rest, key => k = key || hasKey rest key

/-- Property write `o[key] = v` of `Object.assign`: overwrite the first
entry with the key in place, else append at the end. -/
def setKey : Obj → String → JSValue → Obj
  | [], k, v => [(k, v)]
  | (k0, v0) :: rest, k, v =>
      if k0 = k then (k, v) :: rest else (k0, v0) :: setKey rest k v

/-- Copy every own property of `source` onto `target`, in order
(the second half of `Object.assign`). -/
def objAssignInto (target : Obj) (source : Obj) : Obj :=
  source.foldl (fun acc kv => setKey acc kv.1 kv.2) target

/-- `Object.assign(\x7b\x7d, a, b)`: fresh target, copy `a`, then copy `b`
(later source wins on key collision, keeping the key's first position). -/
def objAssign2 (a b : Obj) : Obj :=
  objAssignInto (objAssignInto [] a) b

/-- The object has no duplicate keys (every genuine JS object does). -/
def nodupKeys (o : Obj) : Prop := (o.map Prod.fst).Nodup

instance (o : Obj) : Decidable (nodupKeys o) := by
  unfold nodupKeys; infer_instance

/-- The call-time `this` receiver of a binding function. -/
inductive Ctx where
  | undef
  | nullv
  | obj (fields : Obj)
deriving DecidableEq, Repr

/-- Evaluate the default expression `this.redirectUri`: a TypeError when
`this` is `undefined` or `null` (strict-mode plain call), otherwise the
receiver's `redirectUri` property. -/
def thisRedirectUri : Ctx → Except String JSValue
  | Ctx.obj fields => Except.ok (getField fields "redirectUri")
  | _ => Except.error "TypeError"

/-- Semantics of the parameter default `redirectUri = this.redirectUri`:
the default expression is evaluated only when the argument is
`undefined`. -/
def defaultRedirect (thisv : Ctx) (arg : JSValue) : Except String JSValue :=
  if arg = JSValue.undef then thisRedirectUri thisv else Except.ok arg

/-- The value the `redirectUri` slot receives when the receiver is the
object with fields `f`. -/
def resolved (f : Obj) (arg : JSValue) : JSValue :=
  if arg = JSValue.undef then getField f "redirectUri" else arg

/-- One transport call: HTTP method, path, and the query/body object
argument (`none` when the argument was omitted at the call site). -/
inductive Request where
  | get (path : String) (query : Option Obj)
  | post (path : String) (body : Option Obj)
deriving DecidableEq, Repr

/-- Path of the issued request. -/
def Request.path : Request → String
  | Request.get p _ => p
  | Request.post p _ => p

/-- Query slot of the issued request (`none` for a POST). -/
def Request.query : Request → Option Obj
  | Request.get _ q => q
  | Request.post _ _ => none

/-- Body slot of the issued request (`none` for a GET). -/
def Request.bodyObj : Request → Option Obj
  | Request.get _ _ => none
  | Request.post _ b => b

/-- The transport handle: `get`/`post` produce a deferred result of
abstract type `D`; `redirectUri` is the api object's own `redirectUri`
property. -/
structure Api (D : Type) where
  get : String → Option Obj → D
  post : String → Option Obj → D
  redirectUri : JSValue

/-- Mock transport whose deferred result is the request itself. -/
def reqApi (ru : JSValue) : Api Request :=
  ⟨Request.get, Request.post, ru⟩

/-- A deferred effect on a trace of recorded transport calls. -/
abbrev Tr := List Request → List Request

/-- Mock transport recording each performed call at the end of a trace. -/
def traceApi (ru : JSValue) : Api Tr :=
  ⟨fun p q tr => tr ++ [Request.get p q],
   fun p b tr => tr ++ [Request.post p b], ru⟩

/-- Run a possibly-throwing binding against the trace transport: a thrown
TypeError performs no transport call. -/
def runE (r : Except String Tr) : Tr :=
  fun tr => match r with
  | Except.ok t => t tr
  | Except.error _ => tr

variable {D : Type}

/-! The sixteen binding functions of lib/user, in source order. -/

/-- `function me(api) \x7b return api.get('/me'); \x7d` -/
def me (api : Api D) : D :=
  api.get "/me" none

/-- `function signin(api, identifier, redirectUri = this.redirectUri, context)`
issuing `api.post('/api/2/signin', \x7b identifier, redirectUri, context \x7d)`. -/
def signin (thisv : Ctx) (api : Api D)
    (identifier redirectUri context : JSValue) : Except String D :=
  match defaultRedirect thisv redirectUri with
  | Except.error e => Except.error e
  | Except.ok ru =>
      Except.ok (api.post "/api/2/signin"
        (some [("identifier", identifier), ("redirectUri", ru),
               ("context", context)]))

/-- `function user(api, properties) \x7b return api.post('/api/2/user', properties); \x7d` -/
def user (api : Api D) (properties : Obj) : D :=
  api.post "/api/2/user" (some properties)

/-- `function signup(api, email, password, redirectUri = this.redirectUri)`
issuing `api.post('/api/2/signup', \x7b email, password, redirectUri \x7d)`. -/
def signup (thisv : Ctx) (api : Api D)
    (email password redirectUri : JSValue) : Except String D :=
  match defaultRedirect thisv redirectUri with
  | Except.error e => Except.error e
  | Except.ok ru =>
      Except.ok (api.post "/api/2/signup"
        (some [("email", email), ("password", password),
               ("redirectUri", ru)]))

/-- `function signupJwt(api, jwt) \x7b return api.post('/api/2/signup_jwt', \x7b jwt \x7d); \x7d` -/
def signupJwt (api : Api D) (jwt : JSValue) : D :=
  api.post "/api/2/signup_jwt" (some [("jwt", jwt)])

/-- `function get(api, userId) \x7b return api.get('/api/2/user/' + userId); \x7d`
(template literal interpolation). -/
def get (api : Api D) (userId : String) : D :=
  api.get ("/api/2/user/" ++ userId) none

/-- `function update(api, userId, properties)` posting the properties to
the interpolated user path. -/
def update (api : Api D) (userId : String) (properties : Obj) : D :=
  api.post ("/api/2/user/" ++ userId) (some properties)

/-- `function getAll(api, criteria, filters)` issuing
`api.get('/api/2/users', Object.assign(\x7b\x7d, criteria, filters))`. -/
def getAll (api : Api D) (criteria filters : Obj) : D :=
  api.get "/api/2/users" (some (objAssign2 criteria filters))

/-- `function search(api, query) \x7b return api.get('/api/2/search/users', query); \x7d` -/
def search (api : Api D) (query : Obj) : D :=
  api.get "/api/2/search/users" (some query)

/-- `function searchFullText(api, query)` interpolating the query into the
path. -/
def searchFullText (api : Api D) (query : String) : D :=
  api.get ("/api/2/search/users/" ++ query) none

/-- `function triggerVerify(api, userId, trigger, redirectUri = this.redirectUri)`
issuing a GET on the interpolated path with query `\x7b redirectUri \x7d`. -/
def triggerVerify (thisv : Ctx) (api : Api D)
    (userId trigger : String) (redirectUri : JSValue) : Except String D :=
  match defaultRedirect thisv redirectUri with
  | Except.error e => Except.error e
  | Except.ok ru =>
      Except.ok (api.get ("/user/" ++ userId ++ "/trigger/" ++ trigger)
        (some [("redirectUri", ru)]))

/-- `function getMailHistory(api, id, email) \x7b return api.get('/mail', \x7b id, email \x7d); \x7d` -/
def getMailHistory (api : Api D) (id email : JSValue) : D :=
  api.get "/mail" (some [("id", id), ("email", email)])

/-- `function getLevel(api, userId)` on the interpolated level path. -/
def getLevel (api : Api D) (userId : String) : D :=
  api.get ("/user/" ++ userId ++ "/level") none

/-- `function isConnected(api, userId)` on the interpolated connected path. -/
def isConnected (api : Api D) (userId : String) : D :=
  api.get ("/user/" ++ userId ++ "/connected") none

/-- `function getAllAgreements(api, userId)` on the interpolated
agreements path. -/
def getAllAgreements (api : Api D) (userId : String) : D :=
  api.get ("/api/2/user/" ++ userId ++ "/agreements") none

/-- `function acceptAgreements(api, userId)` posting with the body
argument omitted. -/
def acceptAgreements (api : Api D) (userId : String) : D :=
  api.post ("/user/" ++ userId ++ "/agreements/accept") none

/-- Keys of `module.exports` of src/index.js. -/
def indexExports : List String :=
  ["campaign", "paylink", "product", "subscription", "voucher"]

/-- Keys of `module.exports` of the lib/user module. -/
def userModuleExports : List String :=
  ["me", "signin", "user", "signup", "signupJwt", "get", "update",
   "getAll", "search", "searchFullText", "triggerVerify",
   "getMailHistory", "getLevel", "isConnected", "getAllAgreements",
   "acceptAgreements"]

/-! Helper lemmas about objects, the redirect default, and strings. -/

theorem getField_setKey (o : Obj) (k : String) (v : JSValue) (key : String) :
    getField (setKey o k v) key = if k = key then v else getField o key := by
  induction o with
  | nil => simp [setKey, getField]
  | cons hd tl ih =>
      obtain ⟨k0, v0⟩ := hd
      by_cases hk : k0 = k
      · subst hk
        by_cases hkey : k0 = key
        · simp [setKey, getField, hkey]
        · simp [setKey, getField, hkey]
      · by_cases hkey : k0 = key
        · subst hkey
          have hne : k ≠ k0 := fun h => hk h.symm
          simp [setKey, hk, getField, hne]
        · simp [setKey, hk, getField, hkey, ih]

theorem hasKey_mem (o : Obj) (key : String) (h : hasKey o key = true) :
    key ∈ o.map Prod.fst := by
  induction o with
  | nil => simp [hasKey] at h
  | cons hd tl ih =>
      obtain ⟨k0, v0⟩ := hd
      by_cases hk : k0 = key
      · simp [hk]
      · simp [hasKey, hk] at h
        simp [ih h]

theorem getField_undef_of_not_hasKey (o : Obj) (key : String)
    (h : hasKey o key = false) : getField o key = JSValue.undef := by
  induction o with
  | nil => rfl
  | cons hd tl ih =>
      obtain ⟨k0, v0⟩ := hd
      by_cases hk : k0 = key
      · simp [hasKey, hk] at h
      · simp [hasKey, hk] at h
        simp [getField, hk, ih h]

theorem getField_assignInto (s : Obj) (hs : nodupKeys s) (t : Obj) (key : String) :
    getField (objAssignInto t s) key =
      if hasKey s key then getField s key else getField t key := by
  induction s generalizing t with
  | nil => simp [objAssignInto, hasKey]
  | cons hd tl ih =>
      obtain ⟨k0, v0⟩ := hd
      have hnd : nodupKeys tl := by
        simpa [nodupKeys] using (List.nodup_cons.mp hs).2
      have hk0 : k0 ∉ tl.map Prod.fst := by
        simpa [nodupKeys] using (List.nodup_cons.mp hs).1
      have step : objAssignInto t ((k0, v0) :: tl)
          = objAssignInto (setKey t k0 v0) tl := rfl
      rw [step, ih hnd]
      by_cases hrest : hasKey tl key = true
      · have hne : k0 ≠ key := fun h => hk0 (h ▸ hasKey_mem tl key hrest)
        simp [hasKey, hrest, getField, hne]
      · have hrest' : hasKey tl key = false := by simpa using hrest
        by_cases hk : k0 = key
        · subst hk
          simp [hasKey, hrest', getField, getField_setKey]
        · simp [hasKey, hrest', getField, hk, getField_setKey]

theorem getField_objAssign2 (c f : Obj) (hc : nodupKeys c) (hf : nodupKeys f)
    (key : String) :
    getField (objAssign2 c f) key =
      if hasKey f key then getField f key else getField c key := by
  unfold objAssign2
  rw [getField_assignInto f hf, getField_assignInto c hc]
  by_cases h1 : hasKey f key = true
  · simp [h1]
  · have h1' : hasKey f key = false := by simpa using h1
    by_cases h2 : hasKey c key = true
    · simp [h1', h2]
    · have h2' : hasKey c key = false := by simpa using h2
      simp [h1', h2', getField, getField_undef_of_not_hasKey c key h2']

theorem defaultRedirect_obj (f : Obj) (r : JSValue) :
    defaultRedirect (Ctx.obj f) r = Except.ok (resolved f r) := by
  unfold defaultRedirect resolved thisRedirectUri
  by_cases h : r = JSValue.undef <;> simp [h]

theorem defaultRedirect_of_ne (thisv : Ctx) (r : JSValue) (h : r ≠ JSValue.undef) :
    defaultRedirect thisv r = Except.ok r := by
  simp [defaultRedirect, h]

theorem signin_obj (api : Api D) (f : Obj) (id r c : JSValue) :
    signin (Ctx.obj f) api id r c =
      Except.ok (api.post "/api/2/signin"
        (some [("identifier", id), ("redirectUri", resolved f r),
               ("context", c)])) := by
  simp [signin, defaultRedirect_obj]

theorem signin_of_ne (thisv : Ctx) (api : Api D) (id r c : JSValue)
    (h : r ≠ JSValue.undef) :
    signin thisv api id r c =
      Except.ok (api.post "/api/2/signin"
        (some [("identifier", id), ("redirectUri", r), ("context", c)])) := by
  simp [signin, defaultRedirect_of_ne _ _ h]

theorem signup_obj (api : Api D) (f : Obj) (e p r : JSValue) :
    signup (Ctx.obj f) api e p r =
      Except.ok (api.post "/api/2/signup"
        (some [("email", e), ("password", p),
               ("redirectUri", resolved f r)])) := by
  simp [signup, defaultRedirect_obj]

theorem signup_of_ne (thisv : Ctx) (api : Api D) (e p r : JSValue)
    (h : r ≠ JSValue.undef) :
    signup thisv api e p r =
      Except.ok (api.post "/api/2/signup"
        (some [("email", e), ("password", p), ("redirectUri", r)])) := by
  simp [signup, defaultRedirect_of_ne _ _ h]

theorem triggerVerify_obj (api : Api D) (f : Obj) (u t : String) (r : JSValue) :
    triggerVerify (Ctx.obj f) api u t r =
      Except.ok (api.get ("/user/" ++ u ++ "/trigger/" ++ t)
        (some [("redirectUri", resolved f r)])) := by
  simp [triggerVerify, defaultRedirect_obj]

theorem triggerVerify_of_ne (thisv : Ctx) (api : Api D) (u t : String)
    (r : JSValue) (h : r ≠ JSValue.undef) :
    triggerVerify thisv api u t r =
      Except.ok (api.get ("/user/" ++ u ++ "/trigger/" ++ t)
        (some [("redirectUri", r)])) := by
  simp [triggerVerify, defaultRedirect_of_ne _ _ h]

theorem str_append_left_cancel {p u u' : String} (h : p ++ u = p ++ u') :
    u = u' := by
  have hd := congrArg String.data h
  simp only [String.data_append] at hd
  apply String.ext
  exact List.append_cancel_left hd

theorem str_append_right_cancel {s u u' : String} (h : u ++ s = u' ++ s) :
    u = u' := by
  have hd := congrArg String.data h
  simp only [String.data_append] at hd
  apply String.ext
  exact List.append_cancel_right hd

/-- C5: for every userId string, the get-user binding issues a GET whose
path is the literal concatenation of the template prefix and the userId
(concretely, get(api, "u123") targets /api/2/user/u123), with no query
object and no body. -/
theorem get_user_path_interpolation :
    (∀ (E : Type) (api : Api E) (u : String),
        get api u = api.get ("/api/2/user/" ++ u) none)
  ∧ get (reqApi JSValue.undef) "u123" = Request.get "/api/2/user/u123" none
  ∧ (∀ ru u, (get (reqApi ru) u).query = none
        ∧ (get (reqApi ru) u).bodyObj = none)
  ∧ (∀ ru u, get (traceApi ru) u [] = [Request.get ("/api/2/user/" ++ u) none]) := by
  refine ⟨fun E api u => rfl, by decide, fun ru u => ⟨rfl, rfl⟩, fun ru u => rfl⟩

/-- C9: getMailHistory performs no validation: for every id and email
(both supplied, either or both undefined) it issues exactly one GET to
/mail with query object with keys id and email, and never rejects;
getAll likewise issues its GET for every merged criteria/filters with no
validation or sanitization. -/
theorem getMailHistory_getAll_unvalidated :
    (∀ (E : Type) (api : Api E) (id email : JSValue),
        getMailHistory api id email
          = api.get "/mail" (some [("id", id), ("email", email)]))
  ∧ (∀ ru id email, getMailHistory (traceApi ru) id email []
        = [Request.get "/mail" (some [("id", id), ("email", email)])])
  ∧ (∀ (E : Type) (api : Api E) (c f : Obj),
        getAll api c f = api.get "/api/2/users" (some (objAssign2 c f)))
  ∧ (∀ ru c f, getAll (traceApi ru) c f []
        = [Request.get "/api/2/users" (some (objAssign2 c f))]) := by
  exact ⟨fun E api id email => rfl, fun ru id email => rfl,
         fun E api c f => rfl, fun ru c f => rfl⟩

/-- C10: the top-level export is exactly the five namespaced module
groups campaign, paylink, product, subscription, voucher; none of the
user-operation binding names is reachable as a top-level export key,
while each is exported by the user module itself. -/
theorem top_level_exports_modules :
    indexExports = ["campaign", "paylink", "product", "subscription", "voucher"]
  ∧ (∀ n, n ∈ userModuleExports → n ∉ indexExports)
  ∧ ["me", "signin", "user", "signup", "signupJwt", "get", "update",
     "getAll", "search", "searchFullText", "triggerVerify",
     "getMailHistory", "getLevel", "isConnected", "getAllAgreements",
     "acceptAgreements"].all (fun n => n ∈ userModuleExports) = true := by
  refine ⟨rfl, by decide, by decide⟩

/-- C3: every binding function returns exactly the deferred result of
its single transport call, for an arbitrary deferred-result type E and
arbitrary transport: no await, inspection, retry, or wrapping (for the
three bindings with a this-default, the normal return's payload is
exactly the transport's result). -/
theorem bindings_return_transport_result_unmodified :
    (∀ (E : Type) (api : Api E), me api = api.get "/me" none)
  ∧ (∀ (E : Type) (api : Api E) (f : Obj) (id r c : JSValue),
      signin (Ctx.obj f) api id r c
        = Except.ok (api.post "/api/2/signin"
            (some [("identifier", id), ("redirectUri", resolved f r),
                   ("context", c)])))
  ∧ (∀ (E : Type) (api : Api E) (p : Obj),
      user api p = api.post "/api/2/user" (some p))
  ∧ (∀ (E : Type) (api : Api E) (f : Obj) (e pw r : JSValue),
      signup (Ctx.obj f) api e pw r
        = Except.ok (api.post "/api/2/signup"
            (some [("email", e), ("password", pw),
                   ("redirectUri", resolved f r)])))
  ∧ (∀ (E : Type) (api : Api E) (j : JSValue),
      signupJwt api j = api.post "/api/2/signup_jwt" (some [("jwt", j)]))
  ∧ (∀ (E : Type) (api : Api E) (u : String),
      get api u = api.get ("/api/2/user/" ++ u) none)
  ∧ (∀ (E : Type) (api : Api E) (u : String) (p : Obj),
      update api u p = api.post ("/api/2/user/" ++ u) (some p))
  ∧ (∀ (E : Type) (api : Api E) (c f : Obj),
      getAll api c f = api.get "/api/2/users" (some (objAssign2 c f)))
  ∧ (∀ (E : Type) (api : Api E) (q : Obj),
      search api q = api.get "/api/2/search/users" (some q))
  ∧ (∀ (E : Type) (api : Api E) (q : String),
      searchFullText api q = api.get ("/api/2/search/users/" ++ q) none)
  ∧ (∀ (E : Type) (api : Api E) (f : Obj) (u t : String) (r : JSValue),
      triggerVerify (Ctx.obj f) api u t r
        = Except.ok (api.get ("/user/" ++ u ++ "/trigger/" ++ t)
            (some [("redirectUri", resolved f r)])))
  ∧ (∀ (E : Type) (api : Api E) (i e : JSValue),
      getMailHistory api i e
        = api.get "/mail" (some [("id", i), ("email", e)]))
  ∧ (∀ (E : Type) (api : Api E) (u : String),
      getLevel api u = api.get ("/user/" ++ u ++ "/level") none)
  ∧ (∀ (E : Type) (api : Api E) (u : String),
      isConnected api u = api.get ("/user/" ++ u ++ "/connected") none)
  ∧ (∀ (E : Type) (api : Api E) (u : String),
      getAllAgreements api u
        = api.get ("/api/2/user/" ++ u ++ "/agreements") none)
  ∧ (∀ (E : Type) (api : Api E) (u : String),
      acceptAgreements api u
        = api.post ("/user/" ++ u ++ "/agreements/accept") none) :=
  ⟨fun _ _ => rfl,
   fun _ api f id r c => signin_obj api f id r c,
   fun _ _ _ => rfl,
   fun _ api f e pw r => signup_obj api f e pw r,
   fun _ _ _ => rfl,
   fun _ _ _ => rfl,
   fun _ _ _ _ => rfl,
   fun _ _ _ _ => rfl,
   fun _ _ _ => rfl,
   fun _ _ _ => rfl,
   fun _ api f u t r => triggerVerify_obj api f u t r,
   fun _ _ _ _ => rfl,
   fun _ _ _ => rfl,
   fun _ _ _ => rfl,
   fun _ _ _ => rfl,
   fun _ _ _ => rfl⟩

/-- C2: against the recording transport, one invocation of any binding
function, from an empty trace, records exactly one call, a single get or
post matching the operation's declared HTTP method, for every choice of
arguments (the three bindings with a this-default invoked through an
arbitrary object receiver). -/
theorem bindings_single_transport_call :
    (∀ ru, me (traceApi ru) [] = [Request.get "/me" none])
  ∧ (∀ ru (f : Obj) (id r c : JSValue),
      runE (signin (Ctx.obj f) (traceApi ru) id r c) []
        = [Request.post "/api/2/signin"
            (some [("identifier", id), ("redirectUri", resolved f r),
                   ("context", c)])])
  ∧ (∀ ru (p : Obj),
      user (traceApi ru) p [] = [Request.post "/api/2/user" (some p)])
  ∧ (∀ ru (f : Obj) (e pw r : JSValue),
      runE (signup (Ctx.obj f) (traceApi ru) e pw r) []
        = [Request.post "/api/2/signup"
            (some [("email", e), ("password", pw),
                   ("redirectUri", resolved f r)])])
  ∧ (∀ ru (j : JSValue),
      signupJwt (traceApi ru) j []
        = [Request.post "/api/2/signup_jwt" (some [("jwt", j)])])
  ∧ (∀ ru (u : String),
      get (traceApi ru) u [] = [Request.get ("/api/2/user/" ++ u) none])
  ∧ (∀ ru (u : String) (p : Obj),
      update (traceApi ru) u p []
        = [Request.post ("/api/2/user/" ++ u) (some p)])
  ∧ (∀ ru (c f : Obj),
      getAll (traceApi ru) c f []
        = [Request.get "/api/2/users" (some (objAssign2 c f))])
  ∧ (∀ ru (q : Obj),
      search (traceApi ru) q []
        = [Request.get "/api/2/search/users" (some q)])
  ∧ (∀ ru (q : String),
      searchFullText (traceApi ru) q []
        = [Request.get ("/api/2/search/users/" ++ q) none])
  ∧ (∀ ru (f : Obj) (u t : String) (r : JSValue),
      runE (triggerVerify (Ctx.obj f) (traceApi ru) u t r) []
        = [Request.get ("/user/" ++ u ++ "/trigger/" ++ t)
            (some [("redirectUri", resolved f r)])])
  ∧ (∀ ru (i e : JSValue),
      getMailHistory (traceApi ru) i e []
        = [Request.get "/mail" (some [("id", i), ("email", e)])])
  ∧ (∀ ru (u : String),
      getLevel (traceApi ru) u [] = [Request.get ("/user/" ++ u ++ "/level") none])
  ∧ (∀ ru (u : String),
      isConnected (traceApi ru) u []
        = [Request.get ("/user/" ++ u ++ "/connected") none])
  ∧ (∀ ru (u : String),
      getAllAgreements (traceApi ru) u []
        = [Request.get ("/api/2/user/" ++ u ++ "/agreements") none])
  ∧ (∀ ru (u : String),
      acceptAgreements (traceApi ru) u []
        = [Request.post ("/user/" ++ u ++ "/agreements/accept") none]) := by
  refine ⟨fun ru => rfl, ?_, fun ru p => rfl, ?_, fun ru j => rfl,
          fun ru u => rfl, fun ru u p => rfl, fun ru c f => rfl,
          fun ru q => rfl, fun ru q => rfl, ?_, fun ru i e => rfl,
          fun ru u => rfl, fun ru u => rfl, fun ru u => rfl, fun ru u => rfl⟩
  · intro ru f id r c
    rw [signin_obj]
    rfl
  · intro ru f e pw r
    rw [signup_obj]
    rfl
  · intro ru f u t r
    rw [triggerVerify_obj]
    rfl

/-- C7: two invocations of the same binding with identical arguments,
sequenced against the recording transport, record two independent
transport calls (the same request twice): no memoization or caching
suppresses the second call. -/
theorem bindings_no_memoization_two_calls :
    (∀ ru, me (traceApi ru) (me (traceApi ru) [])
        = [Request.get "/me" none, Request.get "/me" none])
  ∧ (∀ ru (f : Obj) (id r c : JSValue),
      runE (signin (Ctx.obj f) (traceApi ru) id r c)
          (runE (signin (Ctx.obj f) (traceApi ru) id r c) [])
        = [Request.post "/api/2/signin"
            (some [("identifier", id), ("redirectUri", resolved f r),
                   ("context", c)]),
           Request.post "/api/2/signin"
            (some [("identifier", id), ("redirectUri", resolved f r),
                   ("context", c)])])
  ∧ (∀ ru (p : Obj),
      user (traceApi ru) p (user (traceApi ru) p [])
        = [Request.post "/api/2/user" (some p),
           Request.post "/api/2/user" (some p)])
  ∧ (∀ ru (f : Obj) (e pw r : JSValue),
      runE (signup (Ctx.obj f) (traceApi ru) e pw r)
          (runE (signup (Ctx.obj f) (traceApi ru) e pw r) [])
        = [Request.post "/api/2/signup"
            (some [("email", e), ("password", pw),
                   ("redirectUri", resolved f r)]),
           Request.post "/api/2/signup"
            (some [("email", e), ("password", pw),
                   ("redirectUri", resolved f r)])])
  ∧ (∀ ru (j : JSValue),
      signupJwt (traceApi ru) j (signupJwt (traceApi ru) j [])
        = [Request.post "/api/2/signup_jwt" (some [("jwt", j)]),
           Request.post "/api/2/signup_jwt" (some [("jwt", j)])])
  ∧ (∀ ru (u : String),
      get (traceApi ru) u (get (traceApi ru) u [])
        = [Request.get ("/api/2/user/" ++ u) none,
           Request.get ("/api/2/user/" ++ u) none])
  ∧ (∀ ru (u : String) (p : Obj),
      update (traceApi ru) u p (update (traceApi ru) u p [])
        = [Request.post ("/api/2/user/" ++ u) (some p),
           Request.post ("/api/2/user/" ++ u) (some p)])
  ∧ (∀ ru (c f : Obj),
      getAll (traceApi ru) c f (getAll (traceApi ru) c f [])
        = [Request.get "/api/2/users" (some (objAssign2 c f)),
           Request.get "/api/2/users" (some (objAssign2 c f))])
  ∧ (∀ ru (q : Obj),
      search (traceApi ru) q (search (traceApi ru) q [])
        = [Request.get "/api/2/search/users" (some q),
           Request.get "/api/2/search/users" (some q)])
  ∧ (∀ ru (q : String),
      searchFullText (traceApi ru) q (searchFullText (traceApi ru) q [])
        = [Request.get ("/api/2/search/users/" ++ q) none,
           Request.get ("/api/2/search/users/" ++ q) none])
  ∧ (∀ ru (f : Obj) (u t : String) (r : JSValue),
      runE (triggerVerify (Ctx.obj f) (traceApi ru) u t r)
          (runE (triggerVerify (Ctx.obj f) (traceApi ru) u t r) [])
        = [Request.get ("/user/" ++ u ++ "/trigger/" ++ t)
            (some [("redirectUri", resolved f r)]),
           Request.get ("/user/" ++ u ++ "/trigger/" ++ t)
            (some [("redirectUri", resolved f r)])])
  ∧ (∀ ru (i e : JSValue),
      getMailHistory (traceApi ru) i e (getMailHistory (traceApi ru) i e [])
        = [Request.get "/mail" (some [("id", i), ("email", e)]),
           Request.get "/mail" (some [("id", i), ("email", e)])])
  ∧ (∀ ru (u : String),
      getLevel (traceApi ru) u (getLevel (traceApi ru) u [])
        = [Request.get ("/user/" ++ u ++ "/level") none,
           Request.get ("/user/" ++ u ++ "/level") none])
  ∧ (∀ ru (u : String),
      isConnected (traceApi ru) u (isConnected (traceApi ru) u [])
        = [Request.get ("/user/" ++ u ++ "/connected") none,
           Request.get ("/user/" ++ u ++ "/connected") none])
  ∧ (∀ ru (u : String),
      getAllAgreements (traceApi ru) u (getAllAgreements (traceApi ru) u [])
        = [Request.get ("/api/2/user/" ++ u ++ "/agreements") none,
           Request.get ("/api/2/user/" ++ u ++ "/agreements") none])
  ∧ (∀ ru (u : String),
      acceptAgreements (traceApi ru) u (acceptAgreements (traceApi ru) u [])
        = [Request.post ("/user/" ++ u ++ "/agreements/accept") none,
           Request.post ("/user/" ++ u ++ "/agreements/accept") none]) := by
  refine ⟨fun ru => rfl, ?_, fun ru p => rfl, ?_, fun ru j => rfl,
          fun ru u => rfl, fun ru u p => rfl, fun ru c f => rfl,
          fun ru q => rfl, fun ru q => rfl, ?_, fun ru i e => rfl,
          fun ru u => rfl, fun ru u => rfl, fun ru u => rfl, fun ru u => rfl⟩
  · intro ru f id r c
    rw [signin_obj]
    rfl
  · intro ru f e pw r
    rw [signup_obj]
    rfl
  · intro ru f u t r
    rw [triggerVerify_obj]
    rfl

/-- C1 counterexample: with api.redirectUri set to "https://x" but the
binding invoked through a receiver object without a redirectUri (as when
called as a module function), signin(api, "a@b.com", undefined, ctx)
issues a body whose redirectUri is undefined, not "https://x": the
ambient default is not read from the api argument. -/
theorem signin_redirect_default_not_from_api :
    (reqApi (JSValue.str "https://x")).redirectUri = JSValue.str "https://x"
  ∧ signin (Ctx.obj []) (reqApi (JSValue.str "https://x"))
      (JSValue.str "a@b.com") JSValue.undef (JSValue.str "ctx")
      = Except.ok (Request.post "/api/2/signin"
          (some [("identifier", JSValue.str "a@b.com"),
                 ("redirectUri", JSValue.undef),
                 ("context", JSValue.str "ctx")]))
  ∧ JSValue.undef ≠ JSValue.str "https://x" :=
  ⟨rfl, rfl, by decide⟩

/-- C1 amended: the ambient stored default substituted for an omitted
redirectUri is read from the call-time this receiver, not from the api
argument: under a receiver object with fields f the body's redirectUri
is f's redirectUri property, and an explicitly supplied (non-undefined)
redirectUri is used as given under any receiver. -/
theorem signin_redirect_default_from_receiver (E : Type) (api : Api E)
    (id ctx : JSValue) :
    (∀ f : Obj,
      signin (Ctx.obj f) api id JSValue.undef ctx
        = Except.ok (api.post "/api/2/signin"
            (some [("identifier", id),
                   ("redirectUri", getField f "redirectUri"),
                   ("context", ctx)])))
  ∧ (∀ (thisv : Ctx) (r : JSValue), r ≠ JSValue.undef →
      signin thisv api id r ctx
        = Except.ok (api.post "/api/2/signin"
            (some [("identifier", id), ("redirectUri", r),
                   ("context", ctx)]))) := by
  constructor
  · intro f
    rw [signin_obj]
    simp [resolved]
  · intro thisv r hr
    exact signin_of_ne thisv api id r ctx hr

/-- C1 witness: concrete instances of the amended claim, with the stored
default picked up from the receiver and an explicit value overriding it. -/
theorem signin_redirect_default_from_receiver_witness :
    signin (Ctx.obj [("redirectUri", JSValue.str "https://x")])
        (reqApi JSValue.undef) (JSValue.str "a@b.com") JSValue.undef
        (JSValue.str "ctx")
      = Except.ok (Request.post "/api/2/signin"
          (some [("identifier", JSValue.str "a@b.com"),
                 ("redirectUri", JSValue.str "https://x"),
                 ("context", JSValue.str "ctx")]))
  ∧ signin Ctx.undef (reqApi JSValue.undef) (JSValue.str "a@b.com")
        (JSValue.str "https://y") (JSValue.str "ctx")
      = Except.ok (Request.post "/api/2/signin"
          (some [("identifier", JSValue.str "a@b.com"),
                 ("redirectUri", JSValue.str "https://y"),
                 ("context", JSValue.str "ctx")])) := by
  constructor
  · exact (signin_redirect_default_from_receiver Request (reqApi JSValue.undef)
      (JSValue.str "a@b.com") (JSValue.str "ctx")).1
      [("redirectUri", JSValue.str "https://x")]
  · exact (signin_redirect_default_from_receiver Request (reqApi JSValue.undef)
      (JSValue.str "a@b.com") (JSValue.str "ctx")).2 Ctx.undef
      (JSValue.str "https://y") (by decide)

/-- C4: getAll issues exactly one GET to /api/2/users whose query is the
key-by-key merge of criteria and filters, and on every key present in
both objects the filters value overrides the criteria value. -/
theorem getAll_merges_criteria_filters :
    (∀ (E : Type) (api : Api E) (c f : Obj),
        getAll api c f = api.get "/api/2/users" (some (objAssign2 c f)))
  ∧ (∀ ru (c f : Obj), getAll (traceApi ru) c f []
        = [Request.get "/api/2/users" (some (objAssign2 c f))])
  ∧ (∀ c f : Obj, nodupKeys c → nodupKeys f → ∀ key,
        getField (objAssign2 c f) key
          = if hasKey f key then getField f key else getField c key) :=
  ⟨fun _ _ _ _ => rfl, fun _ _ _ => rfl,
   fun c f hc hf key => getField_objAssign2 c f hc hf key⟩

/-- C4 witness: a concrete disjoint merge and a concrete key collision
where the filters value wins. -/
theorem getAll_merges_criteria_filters_witness :
    getAll (reqApi JSValue.undef) [("a", JSValue.num 1)] [("b", JSValue.num 2)]
      = Request.get "/api/2/users"
          (some [("a", JSValue.num 1), ("b", JSValue.num 2)])
  ∧ getField (objAssign2 [("a", JSValue.num 1), ("c", JSValue.num 7)]
        [("a", JSValue.num 3)]) "a" = JSValue.num 3
  ∧ getField (objAssign2 [("a", JSValue.num 1), ("c", JSValue.num 7)]
        [("a", JSValue.num 3)]) "c" = JSValue.num 7 := by
  refine ⟨?_, ?_, ?_⟩
  · exact getAll_merges_criteria_filters.1 Request (reqApi JSValue.undef)
      [("a", JSValue.num 1)] [("b", JSValue.num 2)]
  · exact getAll_merges_criteria_filters.2.2
      [("a", JSValue.num 1), ("c", JSValue.num 7)] [("a", JSValue.num 3)]
      (by decide) (by decide) "a"
  · exact getAll_merges_criteria_filters.2.2
      [("a", JSValue.num 1), ("c", JSValue.num 7)] [("a", JSValue.num 3)]
      (by decide) (by decide) "c"

/-- C6 counterexample: the module is strict-mode code, so invoking a
binding with the this context undefined (a plain call) or null while
omitting redirectUri evaluates this.redirectUri in the parameter default
and throws a TypeError: the binding itself raises an error for these
choices of ambient this binding. -/
theorem signin_throws_on_undefined_receiver :
    signin Ctx.undef (reqApi JSValue.undef) (JSValue.str "a@b.com")
        JSValue.undef JSValue.undef = Except.error "TypeError"
  ∧ signup Ctx.undef (reqApi JSValue.undef) (JSValue.str "e@x.com")
        JSValue.undef JSValue.undef = Except.error "TypeError"
  ∧ triggerVerify Ctx.nullv (reqApi JSValue.undef) "u1" "newpassword"
        JSValue.undef = Except.error "TypeError" :=
  ⟨rfl, rfl, rfl⟩

/-- C6 amended: no binding raises an error except that signin, signup and
triggerVerify throw a TypeError when this is not an object and their
redirectUri argument is omitted or undefined; whenever this is an object,
or redirectUri is explicitly supplied, evaluation returns normally (the
other thirteen bindings are total functions of their arguments with no
throwing path in their bodies). -/
theorem bindings_raise_no_error_amended (E : Type) (api : Api E) :
    (∀ (f : Obj) (id r c : JSValue),
        ∃ d, signin (Ctx.obj f) api id r c = Except.ok d)
  ∧ (∀ (f : Obj) (e pw r : JSValue),
        ∃ d, signup (Ctx.obj f) api e pw r = Except.ok d)
  ∧ (∀ (f : Obj) (u t : String) (r : JSValue),
        ∃ d, triggerVerify (Ctx.obj f) api u t r = Except.ok d)
  ∧ (∀ (thisv : Ctx) (id r c : JSValue), r ≠ JSValue.undef →
        ∃ d, signin thisv api id r c = Except.ok d)
  ∧ (∀ (thisv : Ctx) (e pw r : JSValue), r ≠ JSValue.undef →
        ∃ d, signup thisv api e pw r = Except.ok d)
  ∧ (∀ (thisv : Ctx) (u t : String) (r : JSValue), r ≠ JSValue.undef →
        ∃ d, triggerVerify thisv api u t r = Except.ok d) :=
  ⟨fun f id r c => ⟨_, signin_obj api f id r c⟩,
   fun f e pw r => ⟨_, signup_obj api f e pw r⟩,
   fun f u t r => ⟨_, triggerVerify_obj api f u t r⟩,
   fun thisv id r c hr => ⟨_, signin_of_ne thisv api id r c hr⟩,
   fun thisv e pw r hr => ⟨_, signup_of_ne thisv api e pw r hr⟩,
   fun thisv u t r hr => ⟨_, triggerVerify_of_ne thisv api u t r hr⟩⟩

/-- C6 witness: concrete no-error instances, one through an object
receiver with the argument omitted and one with an explicit redirectUri
under an undefined receiver. -/
theorem bindings_raise_no_error_amended_witness :
    (∃ d, signin (Ctx.obj []) (reqApi JSValue.undef) (JSValue.str "a@b.com")
        JSValue.undef JSValue.undef = Except.ok d)
  ∧ (∃ d, triggerVerify Ctx.undef (reqApi JSValue.undef) "u1" "newpassword"
        (JSValue.str "https://y") = Except.ok d) :=
  ⟨(bindings_raise_no_error_amended Request (reqApi JSValue.undef)).1
      [] (JSValue.str "a@b.com") JSValue.undef JSValue.undef,
   (bindings_raise_no_error_amended Request (reqApi JSValue.undef)).2.2.2.2.2
      Ctx.undef "u1" "newpassword" (JSValue.str "https://y") (by decide)⟩

/-- C8: every declared parameter of every binding is routed to exactly
one slot of the issued request (shown by the factored request shape:
each parameter occurs in the interpolated path, the query mapping, or
the body object, and the other slots do not depend on it), and no
supplied parameter is silently dropped (shown per parameter by
injectivity of the issued request in that parameter, and for the merged
getAll objects by concrete sensitivity of the query to each). -/
theorem bindings_params_routed_once :
    (∀ ru, me (reqApi ru) = Request.get "/me" none)
  ∧ (∀ ru (f : Obj) (id r c : JSValue),
      signin (Ctx.obj f) (reqApi ru) id r c
        = Except.ok (Request.post "/api/2/signin"
            (some [("identifier", id), ("redirectUri", resolved f r),
                   ("context", c)])))
  ∧ (∀ ru (f : Obj) (id r c id' r' c' : JSValue),
      r ≠ JSValue.undef → r' ≠ JSValue.undef →
      signin (Ctx.obj f) (reqApi ru) id r c
        = signin (Ctx.obj f) (reqApi ru) id' r' c' →
      id = id' ∧ r = r' ∧ c = c')
  ∧ (∀ ru (p : Obj), user (reqApi ru) p = Request.post "/api/2/user" (some p))
  ∧ (∀ ru (p p' : Obj), user (reqApi ru) p = user (reqApi ru) p' → p = p')
  ∧ (∀ ru (f : Obj) (e pw r : JSValue),
      signup (Ctx.obj f) (reqApi ru) e pw r
        = Except.ok (Request.post "/api/2/signup"
            (some [("email", e), ("password", pw),
                   ("redirectUri", resolved f r)])))
  ∧ (∀ ru (f : Obj) (e pw r e' pw' r' : JSValue),
      r ≠ JSValue.undef → r' ≠ JSValue.undef →
      signup (Ctx.obj f) (reqApi ru) e pw r
        = signup (Ctx.obj f) (reqApi ru) e' pw' r' →
      e = e' ∧ pw = pw' ∧ r = r')
  ∧ (∀ ru (j : JSValue),
      signupJwt (reqApi ru) j = Request.post "/api/2/signup_jwt" (some [("jwt", j)]))
  ∧ (∀ ru (j j' : JSValue),
      signupJwt (reqApi ru) j = signupJwt (reqApi ru) j' → j = j')
  ∧ (∀ ru (u : String),
      get (reqApi ru) u = Request.get ("/api/2/user/" ++ u) none)
  ∧ (∀ ru (u u' : String), get (reqApi ru) u = get (reqApi ru) u' → u = u')
  ∧ (∀ ru (u : String) (p : Obj),
      update (reqApi ru) u p = Request.post ("/api/2/user/" ++ u) (some p))
  ∧ (∀ ru (u u' : String) (p p' : Obj),
      update (reqApi ru) u p = update (reqApi ru) u' p' → u = u' ∧ p = p')
  ∧ (∀ ru (c f : Obj),
      getAll (reqApi ru) c f
        = Request.get "/api/2/users" (some (objAssign2 c f)))
  ∧ (getAll (reqApi JSValue.undef) [("a", JSValue.num 1)] []
        ≠ getAll (reqApi JSValue.undef) [] []
      ∧ getAll (reqApi JSValue.undef) [] [("a", JSValue.num 1)]
        ≠ getAll (reqApi JSValue.undef) [] [])
  ∧ (∀ ru (q : Obj),
      search (reqApi ru) q = Request.get "/api/2/search/users" (some q))
  ∧ (∀ ru (q q' : Obj), search (reqApi ru) q = search (reqApi ru) q' → q = q')
  ∧ (∀ ru (q : String),
      searchFullText (reqApi ru) q
        = Request.get ("/api/2/search/users/" ++ q) none)
  ∧ (∀ ru (q q' : String),
      searchFullText (reqApi ru) q = searchFullText (reqApi ru) q' → q = q')
  ∧ (∀ ru (f : Obj) (u t : String) (r : JSValue),
      triggerVerify (Ctx.obj f) (reqApi ru) u t r
        = Except.ok (Request.get ("/user/" ++ u ++ "/trigger/" ++ t)
            (some [("redirectUri", resolved f r)])))
  ∧ (∀ ru (f : Obj) (u t u' t' : String) (r r' : JSValue),
      r ≠ JSValue.undef → r' ≠ JSValue.undef →
      triggerVerify (Ctx.obj f) (reqApi ru) u t r
        = triggerVerify (Ctx.obj f) (reqApi ru) u' t' r' →
      (t = t' → u = u') ∧ (u = u' → t = t') ∧ r = r')
  ∧ (∀ ru (i e : JSValue),
      getMailHistory (reqApi ru) i e
        = Request.get "/mail" (some [("id", i), ("email", e)]))
  ∧ (∀ ru (i e i' e' : JSValue),
      getMailHistory (reqApi ru) i e = getMailHistory (reqApi ru) i' e' →
      i = i' ∧ e = e')
  ∧ (∀ ru (u : String),
      getLevel (reqApi ru) u = Request.get ("/user/" ++ u ++ "/level") none)
  ∧ (∀ ru (u u' : String),
      getLevel (reqApi ru) u = getLevel (reqApi ru) u' → u = u')
  ∧ (∀ ru (u : String),
      isConnected (reqApi ru) u
        = Request.get ("/user/" ++ u ++ "/connected") none)
  ∧ (∀ ru (u u' : String),
      isConnected (reqApi ru) u = isConnected (reqApi ru) u' → u = u')
  ∧ (∀ ru (u : String),
      getAllAgreements (reqApi ru) u
        = Request.get ("/api/2/user/" ++ u ++ "/agreements") none)
  ∧ (∀ ru (u u' : String),
      getAllAgreements (reqApi ru) u = getAllAgreements (reqApi ru) u' → u = u')
  ∧ (∀ ru (u : String),
      acceptAgreements (reqApi ru) u
        = Request.post ("/user/" ++ u ++ "/agreements/accept") none)
  ∧ (∀ ru (u u' : String),
      acceptAgreements (reqApi ru) u = acceptAgreements (reqApi ru) u' → u = u') := by
  refine ⟨fun ru => rfl,
          fun ru f id r c => signin_obj (reqApi ru) f id r c,
          ?_,
          fun ru p => rfl,
          ?_,
          fun ru f e pw r => signup_obj (reqApi ru) f e pw r,
          ?_,
          fun ru j => rfl,
          ?_,
          fun ru u => rfl,
          ?_,
          fun ru u p => rfl,
          ?_,
          fun ru c f => rfl,
          ⟨by decide, by decide⟩,
          fun ru q => rfl,
          ?_,
          fun ru q => rfl,
          ?_,
          fun ru f u t r => triggerVerify_obj (reqApi ru) f u t r,
          ?_,
          fun ru i e => rfl,
          ?_,
          fun ru u => rfl,
          ?_,
          fun ru u => rfl,
          ?_,
          fun ru u => rfl,
          ?_,
          fun ru u => rfl,
          ?_⟩
  · intro ru f id r c id' r' c' hr hr' h
    rw [signin_obj, signin_obj] at h
    simp [resolved, hr, hr', reqApi] at h
    exact ⟨h.1, h.2.1, h.2.2⟩
  · intro ru p p' h
    have hb := congrArg Request.bodyObj h
    simpa [user, reqApi, Request.bodyObj] using hb
  · intro ru f e pw r e' pw' r' hr hr' h
    rw [signup_obj, signup_obj] at h
    simp [resolved, hr, hr', reqApi] at h
    exact ⟨h.1, h.2.1, h.2.2⟩
  · intro ru j j' h
    have hb := congrArg Request.bodyObj h
    simpa [signupJwt, reqApi, Request.bodyObj] using hb
  · intro ru u u' h
    have hp := congrArg Request.path h
    exact str_append_left_cancel
      (show ("/api/2/user/" ++ u) = ("/api/2/user/" ++ u') from hp)
  · intro ru u u' p p' h
    constructor
    · have hp := congrArg Request.path h
      exact str_append_left_cancel
        (show ("/api/2/user/" ++ u) = ("/api/2/user/" ++ u') from hp)
    · have hb := congrArg Request.bodyObj h
      simpa [update, reqApi, Request.bodyObj] using hb
  · intro ru q q' h
    have hq := congrArg Request.query h
    simpa [search, reqApi, Request.query] using hq
  · intro ru q q' h
    have hp := congrArg Request.path h
    exact str_append_left_cancel
      (show ("/api/2/search/users/" ++ q) = ("/api/2/search/users/" ++ q') from hp)
  · intro ru f u t u' t' r r' hr hr' h
    rw [triggerVerify_obj, triggerVerify_obj] at h
    simp only [Except.ok.injEq, reqApi] at h
    refine ⟨?_, ?_, ?_⟩
    · intro ht
      subst ht
      have hp := congrArg Request.path h
      have hp' : (("/user/" ++ u) ++ "/trigger/") ++ t
          = (("/user/" ++ u') ++ "/trigger/") ++ t := hp
      exact str_append_left_cancel
        (str_append_right_cancel (str_append_right_cancel hp'))
    · intro hu
      subst hu
      have hp := congrArg Request.path h
      have hp' : (("/user/" ++ u) ++ "/trigger/") ++ t
          = (("/user/" ++ u) ++ "/trigger/") ++ t' := hp
      exact str_append_left_cancel hp'
    · have hq := congrArg Request.query h
      simp only [Request.query, Option.some.injEq, List.cons.injEq,
                 Prod.mk.injEq] at hq
      have := hq.1.2
      simpa [resolved, hr, hr'] using this
  · intro ru i e i' e' h
    have hq := congrArg Request.query h
    simpa [getMailHistory, reqApi, Request.query] using hq
  · intro ru u u' h
    have hp := congrArg Request.path h
    have hp' : ("/user/" ++ u) ++ "/level" = ("/user/" ++ u') ++ "/level" := hp
    exact str_append_left_cancel (str_append_right_cancel hp')
  · intro ru u u' h
    have hp := congrArg Request.path h
    have hp' : ("/user/" ++ u) ++ "/connected"
        = ("/user/" ++ u') ++ "/connected" := hp
    exact str_append_left_cancel (str_append_right_cancel hp')
  · intro ru u u' h
    have hp := congrArg Request.path h
    have hp' : ("/api/2/user/" ++ u) ++ "/agreements"
        = ("/api/2/user/" ++ u') ++ "/agreements" := hp
    exact str_append_left_cancel (str_append_right_cancel hp')
  · intro ru u u' h
    have hp := congrArg Request.path h
    have hp' : ("/user/" ++ u) ++ "/agreements/accept"
        = ("/user/" ++ u') ++ "/agreements/accept" := hp
    exact str_append_left_cancel (str_append_right_cancel hp')

/-- C8 witness: concrete applications recovering parameters from
concretely equal requests, with the redirectUri side conditions
discharged. -/
theorem bindings_params_routed_once_witness :
    ("u1" : String) = "u1"
  ∧ ((JSValue.str "a@b.com") = JSValue.str "a@b.com"
      ∧ (JSValue.str "https://x") = JSValue.str "https://x"
      ∧ (JSValue.str "ctx") = JSValue.str "ctx") := by
  constructor
  · exact bindings_params_routed_once.2.2.2.2.2.2.2.2.2.2.1
      JSValue.undef "u1" "u1" rfl
  · exact bindings_params_routed_once.2.2.1 JSValue.undef []
      (JSValue.str "a@b.com") (JSValue.str "https://x") (JSValue.str "ctx")
      (JSValue.str "a@b.com") (JSValue.str "https://x") (JSValue.str "ctx")
      (by decide) (by decide) rfl
